import Mathlib

/-!
Verification of the request-admission layer and OAuth façade of the
`useful-outlook-mcp` gateway.

The definitions below are a shallow embedding of the TypeScript source:

* `setParam` / `getParam` model `URLSearchParams.set` / `.get` as an
  association list (every key the routes ever set is written at most once,
  so the first-occurrence semantics coincide with `URLSearchParams`).
* `buildAuthorizeParams` embeds the `GET /authorize` handler of
  `src/auth/metadata.ts` (query-parameter forwarding, `client_id`
  override, scope injection).
* `tokenHandler` embeds the `POST /token` handler's local validation and
  upstream-parameter construction; `TokenOutcome.forward` marks the point
  where the handler would contact the upstream token endpoint, and
  `TokenOutcome.localError` a response produced without any upstream call.
* `registerHandler` embeds the `POST /register` handler; the two
  `randomUUID()` results are passed in as arguments.
* `bearerAuthMiddleware` embeds `src/auth/middleware.ts`; the missing
  `token-validator.ts` module is abstracted as a `String → ParseOutcome`
  argument, and `MiddlewareResult` records the written response, whether
  `next()` was called, and the `req.auth` / `req.rateLimitUserId` fields.
* The Claim Extractor, Tenant Gate and Rate Limiter sources are not part
  of the provided tree; they are modelled from the spec where noted.
-/

/-- Association-list model of `URLSearchParams.set`: replace the value of
the first entry with key `k`, or append `(k, v)` when no entry has key `k`. -/
def setParam : List (String × String) → String → String → List (String × String)
  | [], k, v => [(k, v)]
  | p :: ps, k, v => if p.1 = k then (k, v) :: ps else p :: setParam ps k v

/-- Association-list model of `URLSearchParams.get`: value of the first
entry with key `k`, or `none`. -/
def getParam : List (String × String) → String → Option String
  | [], _ => none
  | p :: ps, k => if p.1 = k then some p.2 else getParam ps k

theorem mem_setParam (ps : List (String × String)) (k v : String)
    (kv : String × String) (h : kv ∈ setParam ps k v) : kv ∈ ps ∨ kv = (k, v) := by
  induction ps with
  | nil => simpa [setParam] using h
  | cons p ps ih =>
    by_cases hpk : p.1 = k
    · simp only [setParam, if_pos hpk, List.mem_cons] at h
      rcases h with h | h
      · exact Or.inr h
      · exact Or.inl (List.mem_cons_of_mem _ h)
    · simp only [setParam, if_neg hpk, List.mem_cons] at h
      rcases h with h | h
      · exact Or.inl (by simp [h])
      · rcases ih h with h' | h'
        · exact Or.inl (List.mem_cons_of_mem _ h')
        · exact Or.inr h'

theorem getParam_setParam_self (ps : List (String × String)) (k v : String) :
    getParam (setParam ps k v) k = some v := by
  induction ps with
  | nil => simp [setParam, getParam]
  | cons p ps ih =>
    by_cases hpk : p.1 = k
    · simp [setParam, getParam, hpk]
    · simp [setParam, getParam, hpk, ih]

theorem getParam_setParam_ne (ps : List (String × String)) (k v k' : String)
    (hne : k' ≠ k) : getParam (setParam ps k v) k' = getParam ps k' := by
  have hkk' : ¬ k = k' := fun h => hne h.symm
  induction ps with
  | nil => simp [setParam, getParam, hkk']
  | cons p ps ih =>
    by_cases hpk : p.1 = k
    · simp [setParam, getParam, hpk, hkk']
    · simp only [setParam, if_neg hpk, getParam]
      by_cases hpk' : p.1 = k'
      · simp [hpk']
      · simp [hpk', ih]

/-- Gateway configuration fields consumed by the OAuth routes
(`src/config.ts`): the registered application id, the optional client
secret, and the tenant. -/
structure GatewayConfig where
  clientId : String
  clientSecret : Option String
  tenantId : String
deriving DecidableEq

/-- The explicit allowlist of caller query parameters forwarded by
`GET /authorize` (the `allowedParams` array in `src/auth/metadata.ts`;
`prompt` is commented out in the source and hence absent). -/
def allowedParams : List String :=
  ["response_type", "redirect_uri", "scope", "state",
   "code_challenge", "code_challenge_method", "login_hint", "domain_hint"]

/-- One step of the forwarding loop: `req.query[param]` is modelled as
`query param`; the `value && typeof value === 'string'` guard makes a
missing, non-string, or empty value fall through. -/
def forwardStep (query : String → Option String)
    (ps : List (String × String)) (p : String) : List (String × String) :=
  match query p with
  | some v => if v = "" then ps else setParam ps p v
  | none => ps

/-- The `for (const param of allowedParams)` loop of the authorize handler,
starting from the (parameterless) upstream authorization endpoint URL. -/
def forwardAllowedParams (query : String → Option String) : List (String × String) :=
  allowedParams.foldl (forwardStep query) []

/-- Embedding of the `GET /authorize` handler's search-parameter
construction: forward the allowlisted caller parameters, then always set
`client_id` to the gateway's configured id, then inject the required
scopes when no `scope` parameter ended up in the URL. -/
def buildAuthorizeParams (query : String → Option String) (cfg : GatewayConfig)
    (requiredScopes : List String) : List (String × String) :=
  let ps := forwardAllowedParams query
  let ps := setParam ps "client_id" cfg.clientId
  match getParam ps "scope" with
  | some _ => ps
  | none => setParam ps "scope" (String.intercalate " " requiredScopes)

theorem mem_foldl_forwardStep (query : String → Option String) :
    ∀ (l : List String) (ps : List (String × String)) (kv : String × String),
      kv ∈ l.foldl (forwardStep query) ps →
      kv ∈ ps ∨ (kv.1 ∈ l ∧ query kv.1 = some kv.2) := by
  intro l
  induction l with
  | nil => intro ps kv h; exact Or.inl h
  | cons p l ih =>
    intro ps kv h
    rcases ih (forwardStep query ps p) kv h with h' | h'
    · unfold forwardStep at h'
      split at h'
      next v hq =>
        by_cases hv : v = ""
        · rw [if_pos hv] at h'; exact Or.inl h'
        · rw [if_neg hv] at h'
          rcases mem_setParam ps p v kv h' with h'' | h''
          · exact Or.inl h''
          · refine Or.inr ⟨?_, ?_⟩
            · rw [h'']; exact List.mem_cons_self _ _
            · rw [h'']; simpa using hq
      next hq => exact Or.inl h'
    · exact Or.inr ⟨List.mem_cons_of_mem _ h'.1, h'.2⟩

theorem mem_forwardAllowedParams (query : String → Option String)
    (kv : String × String) (h : kv ∈ forwardAllowedParams query) :
    kv.1 ∈ allowedParams ∧ query kv.1 = some kv.2 := by
  rcases mem_foldl_forwardStep query allowedParams [] kv h with h' | h'
  · simp at h'
  · exact h'

/-- C1: the `GET /authorize` redirect URL always carries the gateway's own
configured `client_id` (never a caller-supplied one), and every parameter
pair in it is either that `client_id` entry, an allowlisted caller
parameter copied verbatim, or the injected `scope` value; no other
caller-supplied parameter can appear. -/
theorem authorize_client_id_override_and_allowlist
    (query : String → Option String) (cfg : GatewayConfig) (scopes : List String) :
    getParam (buildAuthorizeParams query cfg scopes) "client_id" = some cfg.clientId ∧
    ∀ kv ∈ buildAuthorizeParams query cfg scopes,
      kv.1 = "client_id" ∨
        (kv.1 ∈ allowedParams ∧ (query kv.1 = some kv.2 ∨ kv.1 = "scope")) := by
  unfold buildAuthorizeParams
  rcases hs : getParam (setParam (forwardAllowedParams query) "client_id" cfg.clientId) "scope"
    with _ | v
  · simp only [hs]
    constructor
    · rw [getParam_setParam_ne _ _ _ _ (by decide)]
      exact getParam_setParam_self _ _ _
    · intro kv hkv
      rcases mem_setParam _ _ _ kv hkv with h' | h'
      · rcases mem_setParam _ _ _ kv h' with h'' | h''
        · exact Or.inr ⟨(mem_forwardAllowedParams query kv h'').1,
            Or.inl (mem_forwardAllowedParams query kv h'').2⟩
        · exact Or.inl (by rw [h''])
      · refine Or.inr ⟨?_, Or.inr ?_⟩
        · rw [h']; show "scope" ∈ allowedParams; decide
        · rw [h']
  · simp only [hs]
    constructor
    · exact getParam_setParam_self _ _ _
    · intro kv hkv
      rcases mem_setParam _ _ _ kv hkv with h' | h'
      · exact Or.inr ⟨(mem_forwardAllowedParams query kv h').1,
          Or.inl (mem_forwardAllowedParams query kv h').2⟩
      · exact Or.inl (by rw [h'])

/-- Concrete caller query for the witness: it tries to smuggle
`client_id=evil123` and also supplies a `state` parameter. -/
def evilQuery : String → Option String :=
  fun k => if k = "client_id" then some "evil123" else
    if k = "state" then some "xyz" else none

/-- Witness for C1 at a concrete malicious query: the built URL's
`client_id` is the gateway's id, and the forwarded `state` pair is an
allowlisted caller parameter. -/
theorem authorize_client_id_override_witness :
    getParam (buildAuthorizeParams evilQuery ⟨"gateway-app-id", none, "common"⟩ ["User.Read"])
        "client_id" = some "gateway-app-id" ∧
    ("state", "xyz") ∈ buildAuthorizeParams evilQuery ⟨"gateway-app-id", none, "common"⟩ ["User.Read"] ∧
    ("state" = "client_id" ∨
      ("state" ∈ allowedParams ∧ (evilQuery "state" = some "xyz" ∨ "state" = "scope"))) := by
  have h := authorize_client_id_override_and_allowlist evilQuery
    ⟨"gateway-app-id", none, "common"⟩ ["User.Read"]
  refine ⟨h.1, by decide, ?_⟩
  exact h.2 ("state", "xyz") (by decide)

/-- Form-encoded body fields read (or, for the caller-supplied
credentials, deliberately ignored) by the `POST /token` handler. A field
holding `some ""` is present but empty; the handler's `!body.x` checks
treat it like a missing field. -/
structure TokenBody where
  grant_type : Option String
  code : Option String
  redirect_uri : Option String
  code_verifier : Option String
  refresh_token : Option String
  client_id : Option String
  client_secret : Option String
deriving DecidableEq

/-- JavaScript truthiness of an optional string field. -/
def truthy : Option String → Bool
  | none => false
  | some s => s ≠ ""

/-- Outcome of the `POST /token` handler before any network activity:
either a local 4xx error response (no upstream call is made), or the
parameter set that is forwarded to the upstream token endpoint. -/
inductive TokenOutcome
  | localError (status : Nat) (code : String) (description : String)
  | forward (upstream : List (String × String))
deriving DecidableEq

/-- Set `k := v` only when the optional string `v` is truthy (present and
non-empty); models the `if (x) { params.set(k, x) }` pattern of the
source. -/
def maybeSetParam (ps : List (String × String)) (k : String) (v : Option String) :
    List (String × String) :=
  match v with
  | some s => if s = "" then ps else setParam ps k s
  | none => ps

/-- The upstream parameter base built before the grant-specific fields:
`client_id` and `grant_type` always, `client_secret` only when the
gateway is configured as a confidential client (`if (config.clientSecret)`,
so an empty configured secret is also skipped by truthiness). -/
def baseTokenParams (cfg : GatewayConfig) (gt : String) : List (String × String) :=
  maybeSetParam (setParam (setParam [] "client_id" cfg.clientId) "grant_type" gt)
    "client_secret" cfg.clientSecret

/-- Upstream parameters for the `authorization_code` grant (the branch
condition guarantees `grant_type` is that literal): `code`,
`redirect_uri`, and `code_verifier` when truthy. -/
def authCodeForwardParams (cfg : GatewayConfig) (body : TokenBody) : List (String × String) :=
  maybeSetParam
    (setParam (setParam (baseTokenParams cfg "authorization_code") "code" (body.code.getD ""))
      "redirect_uri" (body.redirect_uri.getD ""))
    "code_verifier" body.code_verifier

/-- Upstream parameters for the `refresh_token` grant. -/
def refreshForwardParams (cfg : GatewayConfig) (body : TokenBody) : List (String × String) :=
  setParam (baseTokenParams cfg "refresh_token") "refresh_token" (body.refresh_token.getD "")

/-- Embedding of the `POST /token` handler of `src/auth/metadata.ts`:
grant-type validation, required-field checks, and construction of the
upstream `URLSearchParams` from the gateway's own credentials. -/
def tokenHandler (cfg : GatewayConfig) (body : TokenBody) : TokenOutcome :=
  if truthy body.grant_type = false then
    .localError 400 "invalid_request" "grant_type parameter is required"
  else if body.grant_type.getD "" = "authorization_code" then
    if truthy body.code && truthy body.redirect_uri then
      .forward (authCodeForwardParams cfg body)
    else
      .localError 400 "invalid_request"
        "code and redirect_uri are required for authorization_code grant"
  else if body.grant_type.getD "" = "refresh_token" then
    if truthy body.refresh_token then
      .forward (refreshForwardParams cfg body)
    else
      .localError 400 "invalid_request" "refresh_token is required for refresh_token grant"
  else
    .localError 400 "unsupported_grant_type" "Grant type is not supported"

/-- Whether the handler reached the upstream call. -/
def TokenOutcome.isForward : TokenOutcome → Bool
  | .forward _ => true
  | .localError _ _ _ => false

theorem getParam_maybeSetParam_ne (ps : List (String × String)) (k : String)
    (v : Option String) (k' : String) (hne : k' ≠ k) :
    getParam (maybeSetParam ps k v) k' = getParam ps k' := by
  rcases v with _ | s
  · rfl
  · by_cases hs : s = ""
    · simp [maybeSetParam, hs]
    · simp only [maybeSetParam, if_neg hs]
      exact getParam_setParam_ne _ _ _ _ hne

theorem getParam_maybeSetParam_of_none (ps : List (String × String)) (k : String)
    (v : Option String) (s' : String) (hnone : getParam ps k = none)
    (h : getParam (maybeSetParam ps k v) k = some s') : v = some s' := by
  rcases v with _ | s
  · rw [maybeSetParam] at h
    rw [hnone] at h
    exact absurd h (by simp)
  · by_cases hs : s = ""
    · simp only [maybeSetParam, if_pos hs] at h
      rw [hnone] at h
      exact absurd h (by simp)
    · simp only [maybeSetParam, if_neg hs] at h
      rw [getParam_setParam_self] at h
      rw [← h]

theorem baseTokenParams_client_id (cfg : GatewayConfig) (gt : String) :
    getParam (baseTokenParams cfg gt) "client_id" = some cfg.clientId := by
  unfold baseTokenParams
  rw [getParam_maybeSetParam_ne _ _ _ _ (by decide),
    getParam_setParam_ne _ _ _ _ (by decide)]
  exact getParam_setParam_self _ _ _

theorem baseTokenParams_client_secret (cfg : GatewayConfig) (gt : String) (s' : String)
    (h : getParam (baseTokenParams cfg gt) "client_secret" = some s') :
    cfg.clientSecret = some s' := by
  unfold baseTokenParams at h
  refine getParam_maybeSetParam_of_none _ _ _ _ ?_ h
  rw [getParam_setParam_ne _ _ _ _ (by decide),
    getParam_setParam_ne _ _ _ _ (by decide)]
  rfl

theorem authCodeForwardParams_client_id (cfg : GatewayConfig) (body : TokenBody) :
    getParam (authCodeForwardParams cfg body) "client_id" = some cfg.clientId := by
  unfold authCodeForwardParams
  rw [getParam_maybeSetParam_ne _ _ _ _ (by decide),
    getParam_setParam_ne _ _ _ _ (by decide),
    getParam_setParam_ne _ _ _ _ (by decide)]
  exact baseTokenParams_client_id cfg _

theorem authCodeForwardParams_client_secret (cfg : GatewayConfig) (body : TokenBody)
    (s' : String) (h : getParam (authCodeForwardParams cfg body) "client_secret" = some s') :
    cfg.clientSecret = some s' := by
  unfold authCodeForwardParams at h
  rw [getParam_maybeSetParam_ne _ _ _ _ (by decide),
    getParam_setParam_ne _ _ _ _ (by decide),
    getParam_setParam_ne _ _ _ _ (by decide)] at h
  exact baseTokenParams_client_secret cfg _ s' h

theorem refreshForwardParams_client_id (cfg : GatewayConfig) (body : TokenBody) :
    getParam (refreshForwardParams cfg body) "client_id" = some cfg.clientId := by
  unfold refreshForwardParams
  rw [getParam_setParam_ne _ _ _ _ (by decide)]
  exact baseTokenParams_client_id cfg _

theorem refreshForwardParams_client_secret (cfg : GatewayConfig) (body : TokenBody)
    (s' : String) (h : getParam (refreshForwardParams cfg body) "client_secret" = some s') :
    cfg.clientSecret = some s' := by
  unfold refreshForwardParams at h
  rw [getParam_setParam_ne _ _ _ _ (by decide)] at h
  exact baseTokenParams_client_secret cfg _ s' h

/-- C3 (amended): `POST /token` grant validation. A missing or empty
`grant_type` is rejected as `400 invalid_request`; a present non-empty
`grant_type` other than the two supported values is rejected as
`400 unsupported_grant_type`; `authorization_code` forwards upstream
exactly when `code` and `redirect_uri` are both present and non-empty,
otherwise `400 invalid_request`; `refresh_token` forwards upstream
exactly when `refresh_token` is present and non-empty, otherwise
`400 invalid_request`. Every `localError` outcome is produced without
contacting the upstream token endpoint. -/
theorem token_grant_type_validation (cfg : GatewayConfig) (body : TokenBody) :
    ((body.grant_type = none ∨ body.grant_type = some "") →
      tokenHandler cfg body =
        .localError 400 "invalid_request" "grant_type parameter is required") ∧
    (∀ g, body.grant_type = some g → g ≠ "" → g ≠ "authorization_code" →
      g ≠ "refresh_token" →
      tokenHandler cfg body =
        .localError 400 "unsupported_grant_type" "Grant type is not supported") ∧
    (body.grant_type = some "authorization_code" →
      ((truthy body.code && truthy body.redirect_uri) = true →
        tokenHandler cfg body = .forward (authCodeForwardParams cfg body)) ∧
      ((truthy body.code && truthy body.redirect_uri) = false →
        tokenHandler cfg body = .localError 400 "invalid_request"
          "code and redirect_uri are required for authorization_code grant")) ∧
    (body.grant_type = some "refresh_token" →
      (truthy body.refresh_token = true →
        tokenHandler cfg body = .forward (refreshForwardParams cfg body)) ∧
      (truthy body.refresh_token = false →
        tokenHandler cfg body = .localError 400 "invalid_request"
          "refresh_token is required for refresh_token grant")) := by
  refine ⟨?_, ?_, ?_, ?_⟩
  · rintro (hg | hg) <;> simp [tokenHandler, truthy, hg]
  · intro g hg hne hac hrt
    simp [tokenHandler, truthy, hg, hne, hac, hrt]
  · intro hg
    have htg : truthy (some "authorization_code") = true := rfl
    constructor <;> intro hf <;> simp [tokenHandler, hg, htg, hf]
  · intro hg
    have htg : truthy (some "refresh_token") = true := rfl
    constructor <;> intro hf <;> simp [tokenHandler, hg, htg, hf]

/-- Witness for C3 at concrete bodies: `grant_type=password` is rejected
as `unsupported_grant_type` without any upstream call, and a complete
`authorization_code` body is forwarded. -/
theorem token_grant_type_validation_witness :
    tokenHandler ⟨"gid", none, "common"⟩ ⟨some "password", none, none, none, none, none, none⟩ =
      .localError 400 "unsupported_grant_type" "Grant type is not supported" ∧
    tokenHandler ⟨"gid", none, "common"⟩
        ⟨some "authorization_code", some "c0de", some "https://cb", none, none, none, none⟩ =
      .forward (authCodeForwardParams ⟨"gid", none, "common"⟩
        ⟨some "authorization_code", some "c0de", some "https://cb", none, none, none, none⟩) := by
  constructor
  · exact (token_grant_type_validation ⟨"gid", none, "common"⟩
      ⟨some "password", none, none, none, none, none, none⟩).2.1 "password" rfl
      (by decide) (by decide) (by decide)
  · exact ((token_grant_type_validation ⟨"gid", none, "common"⟩
      ⟨some "authorization_code", some "c0de", some "https://cb", none, none, none, none⟩).2.2.1
      rfl).1 (by decide)

/-- Counterexample for C3 as stated: the body field `grant_type` can hold
the empty string, which is neither `authorization_code` nor
`refresh_token`, yet the handler's response carries error code
`invalid_request`, not the `unsupported_grant_type` the claim requires. -/
theorem token_empty_grant_type_counterexample :
    ("" = "authorization_code") = False ∧ ("" = "refresh_token") = False ∧
    tokenHandler ⟨"gid", none, "common"⟩ ⟨some "", none, none, none, none, none, none⟩ =
      .localError 400 "invalid_request" "grant_type parameter is required" ∧
    ("invalid_request" = "unsupported_grant_type") = False := by
  refine ⟨by simp, by simp, by decide, by simp⟩

/-- C10: the parameter set forwarded to the upstream token endpoint uses
the gateway's configured `client_id`, its `client_secret` (when included)
comes from the gateway configuration, and caller-supplied `client_id` /
`client_secret` body fields are never read: two bodies differing only in
those fields produce the same handler outcome, hence identical upstream
parameters. -/
theorem token_upstream_gateway_credentials (cfg : GatewayConfig) (body : TokenBody) :
    (∀ x y, tokenHandler cfg { body with client_id := x, client_secret := y } =
      tokenHandler cfg body) ∧
    ∀ ps, tokenHandler cfg body = .forward ps →
      getParam ps "client_id" = some cfg.clientId ∧
      ∀ s, getParam ps "client_secret" = some s → cfg.clientSecret = some s := by
  constructor
  · intro x y
    cases body
    rfl
  · intro ps h
    unfold tokenHandler at h
    split at h
    · exact absurd h (by simp)
    · split at h
      · split at h
        · injection h with h
          subst h
          exact ⟨authCodeForwardParams_client_id cfg body,
            fun s hs => authCodeForwardParams_client_secret cfg body s hs⟩
        · exact absurd h (by simp)
      · split at h
        · split at h
          · injection h with h
            subst h
            exact ⟨refreshForwardParams_client_id cfg body,
              fun s hs => refreshForwardParams_client_secret cfg body s hs⟩
          · exact absurd h (by simp)
        · exact absurd h (by simp)

/-- Witness for C10: a concrete confidential-client configuration and an
`authorization_code` body carrying a hostile `client_id`/`client_secret`;
the forwarded parameters still hold the gateway's credentials. -/
theorem token_upstream_gateway_credentials_witness :
    tokenHandler ⟨"gateway-id", some "gateway-secret", "common"⟩
        ⟨some "authorization_code", some "c0de", some "https://cb",
         none, none, some "evil-id", some "evil-secret"⟩ =
      tokenHandler ⟨"gateway-id", some "gateway-secret", "common"⟩
        ⟨some "authorization_code", some "c0de", some "https://cb",
         none, none, none, none⟩ ∧
    getParam (authCodeForwardParams ⟨"gateway-id", some "gateway-secret", "common"⟩
        ⟨some "authorization_code", some "c0de", some "https://cb",
         none, none, none, none⟩) "client_id" = some "gateway-id" ∧
    (some "gateway-secret" : Option String) = some "gateway-secret" := by
  have h := token_upstream_gateway_credentials ⟨"gateway-id", some "gateway-secret", "common"⟩
    ⟨some "authorization_code", some "c0de", some "https://cb", none, none, none, none⟩
  refine ⟨h.1 (some "evil-id") (some "evil-secret"), ?_, ?_⟩
  · exact (h.2 (authCodeForwardParams ⟨"gateway-id", some "gateway-secret", "common"⟩
      ⟨some "authorization_code", some "c0de", some "https://cb", none, none, none, none⟩)
      (by decide)).1
  · exact (h.2 (authCodeForwardParams ⟨"gateway-id", some "gateway-secret", "common"⟩
      ⟨some "authorization_code", some "c0de", some "https://cb", none, none, none, none⟩)
      (by decide)).2 "gateway-secret" (by decide)

/-- Character-level model of `String.startsWith` (used for the
`authHeader.startsWith('Bearer ')` scheme check); stated on the
character list so it is kernel-computable. -/
def strStartsWith (s p : String) : Bool :=
  decide (s.data.take p.data.length = p.data)

/-- Character-level model of `String.prototype.substring(n)`. -/
def strDrop (s : String) (n : Nat) : String :=
  String.mk (s.data.drop n)

/-- Character-level model of `String.prototype.trim()`: strip whitespace
from both ends. -/
def strTrim (s : String) : String :=
  String.mk (((s.data.dropWhile Char.isWhitespace).reverse.dropWhile
    Char.isWhitespace).reverse)

/-- Error codes raised by the token validator (`TokenValidationError.code`
values named by the middleware's `getStatusCode` switch and the spec's
error taxonomy). -/
inductive TokenErrorCode
  | invalid_token
  | expired_token
  | tenant_not_allowed
deriving DecidableEq

/-- Embedding of `getStatusCode` in `src/auth/middleware.ts`. -/
def getStatusCode : TokenErrorCode → Nat
  | .expired_token => 401
  | .invalid_token => 401
  | .tenant_not_allowed => 403

/-- The wire spelling of each error code (`error.code` is written into the
response body's `error` field). -/
def errorCodeString : TokenErrorCode → String
  | .invalid_token => "invalid_token"
  | .expired_token => "expired_token"
  | .tenant_not_allowed => "tenant_not_allowed"

/-- Modelled from the spec: the `ParsedToken` payload shape of the missing
`src/auth/token-validator.ts` (required claims `oid` = subjectId,
`tid` = tenantId, `exp` = expiresAt in epoch seconds, and an optional
principal-name-like claim used for the display identifier). -/
structure ParsedToken where
  oid : String
  tid : String
  preferredUsername : Option String
  exp : Int
deriving DecidableEq

/-- Modelled from the spec: `displayIdentifier` resolution of the missing
token validator — a principal-name-style claim if present and non-empty,
else the subject identifier. -/
def getUserIdentifier (t : ParsedToken) : String :=
  match t.preferredUsername with
  | some u => if u = "" then t.oid else u
  | none => t.oid

/-- Result of `parseToken` as observed by the middleware: a parsed token,
a thrown `TokenValidationError`, or any other thrown error. The validator
itself lives in the missing `token-validator.ts`, so the middleware is
verified for every possible validator behaviour. -/
inductive ParseOutcome
  | ok (t : ParsedToken)
  | validationError (code : TokenErrorCode) (msg : String)
  | unexpectedError
deriving DecidableEq

/-- The `req.auth` record attached on success. -/
structure AuthInfo where
  token : String
  userId : String
  tenantId : String
  parsedToken : ParsedToken
deriving DecidableEq

/-- An error response body written by the middleware together with its
HTTP status. -/
structure ErrorResponse where
  status : Nat
  error : String
  error_description : String
deriving DecidableEq

/-- Observable effect of one `bearerAuthMiddleware` run: the single error
response written (if any), whether `next()` was called, and the
`req.auth` / `req.rateLimitUserId` fields left on the request. -/
structure MiddlewareResult where
  response : Option ErrorResponse
  nextCalled : Bool
  auth : Option AuthInfo
  rateLimitUserId : Option String
deriving DecidableEq

/-- Embedding of `bearerAuthMiddleware` in `src/auth/middleware.ts`.
`authHeader` is `req.headers.authorization` (`none` when absent); the
JavaScript `if (!authHeader)` check also treats an empty-string header as
missing. `parseToken` abstracts the token validator. -/
def bearerAuthMiddleware (authHeader : Option String)
    (parseToken : String → ParseOutcome) : MiddlewareResult :=
  match authHeader with
  | none =>
    ⟨some ⟨401, "invalid_request", "Missing Authorization header"⟩, false, none, none⟩
  | some h =>
    if h = "" then
      ⟨some ⟨401, "invalid_request", "Missing Authorization header"⟩, false, none, none⟩
    else if strStartsWith h "Bearer " then
      let token := strTrim (strDrop h 7)
      if token = "" then
        ⟨some ⟨401, "invalid_token", "Bearer token is empty"⟩, false, none, none⟩
      else
        match parseToken token with
        | .ok t =>
          ⟨none, true, some ⟨token, getUserIdentifier t, t.tid, t⟩, some t.oid⟩
        | .validationError code msg =>
          ⟨some ⟨getStatusCode code, errorCodeString code, msg⟩, false, none, none⟩
        | .unexpectedError =>
          ⟨some ⟨500, "server_error", "Authentication failed due to internal error"⟩,
            false, none, none⟩
    else
      ⟨some ⟨401, "invalid_request", "Authorization header must use Bearer scheme"⟩,
        false, none, none⟩

/-- C6 (amended): malformed `Authorization` headers. An absent header —
and, because of the JavaScript falsy check, a present empty-string header
— yields 401 `invalid_request` with description
"Missing Authorization header"; a present non-empty header not using the
`Bearer ` scheme yields 401 `invalid_request` with a description naming
the Bearer scheme; a Bearer header whose token is empty after trimming
yields 401 `invalid_token`. In each case the result is the same for every
token parser (the parser is never invoked), `next()` is not called (so
the tenant gate, rate limiter and downstream handler are unreachable),
and `req.auth` stays unset. -/
theorem middleware_malformed_header (h : Option String)
    (p : String → ParseOutcome) :
    ((h = none ∨ h = some "") →
      bearerAuthMiddleware h p =
        ⟨some ⟨401, "invalid_request", "Missing Authorization header"⟩, false, none, none⟩) ∧
    (∀ s, h = some s → s ≠ "" → strStartsWith s "Bearer " = false →
      bearerAuthMiddleware h p =
        ⟨some ⟨401, "invalid_request", "Authorization header must use Bearer scheme"⟩,
          false, none, none⟩) ∧
    (∀ s, h = some s → strStartsWith s "Bearer " = true → strTrim (strDrop s 7) = "" →
      bearerAuthMiddleware h p =
        ⟨some ⟨401, "invalid_token", "Bearer token is empty"⟩, false, none, none⟩) := by
  refine ⟨?_, ?_, ?_⟩
  · rintro (hh | hh) <;> simp [bearerAuthMiddleware, hh]
  · intro s hh hs hb
    simp [bearerAuthMiddleware, hh, hs, hb]
  · intro s hh hb ht
    have hs : ¬ s = "" := by
      intro he
      rw [he] at hb
      exact absurd hb (by decide)
    simp [bearerAuthMiddleware, hh, hs, hb, ht]

/-- Witness for C6 at concrete headers: a `Basic` header is rejected for
its scheme and a whitespace-only Bearer token is rejected as empty, via
the malformed-header theorem. -/
theorem middleware_malformed_header_witness :
    bearerAuthMiddleware (some "Basic dXNlcg==") (fun _ => .unexpectedError) =
      ⟨some ⟨401, "invalid_request", "Authorization header must use Bearer scheme"⟩,
        false, none, none⟩ ∧
    bearerAuthMiddleware (some "Bearer   ") (fun _ => .unexpectedError) =
      ⟨some ⟨401, "invalid_token", "Bearer token is empty"⟩, false, none, none⟩ := by
  constructor
  · exact (middleware_malformed_header (some "Basic dXNlcg==")
      (fun _ => .unexpectedError)).2.1 "Basic dXNlcg==" rfl (by decide) (by decide)
  · exact (middleware_malformed_header (some "Bearer   ")
      (fun _ => .unexpectedError)).2.2 "Bearer   " rfl (by decide) (by decide)

/-- Counterexample for C6 as stated: an empty-string `Authorization`
header is present and does not use the Bearer scheme, yet the middleware
answers with the missing-header description (the `!authHeader` falsy
check), not with a description mentioning the Bearer scheme. -/
theorem middleware_empty_header_counterexample :
    strStartsWith "" "Bearer " = false ∧
    bearerAuthMiddleware (some "") (fun _ => .unexpectedError) =
      ⟨some ⟨401, "invalid_request", "Missing Authorization header"⟩, false, none, none⟩ ∧
    ("Missing Authorization header" = "Authorization header must use Bearer scheme") = False := by
  refine ⟨by decide, by decide, by simp⟩

/-- C7: when token parsing raises a `TokenValidationError`, the
middleware writes the status from `getStatusCode` and the raised kind as
the body's error code: 401 for `invalid_token` and `expired_token`, 403
with `tenant_not_allowed` for a tenant rejection. -/
theorem middleware_validation_error_mapping (s : String)
    (p : String → ParseOutcome) (code : TokenErrorCode) (msg : String)
    (hscheme : strStartsWith s "Bearer " = true)
    (htok : strTrim (strDrop s 7) ≠ "")
    (hp : p (strTrim (strDrop s 7)) = .validationError code msg) :
    (bearerAuthMiddleware (some s) p).response =
      some ⟨getStatusCode code, errorCodeString code, msg⟩ ∧
    (bearerAuthMiddleware (some s) p).nextCalled = false ∧
    (match code with
      | .invalid_token => (getStatusCode code, errorCodeString code) = (401, "invalid_token")
      | .expired_token => (getStatusCode code, errorCodeString code) = (401, "expired_token")
      | .tenant_not_allowed =>
        (getStatusCode code, errorCodeString code) = (403, "tenant_not_allowed")) := by
  have hs : ¬ s = "" := by
    intro he
    rw [he] at hscheme
    exact absurd hscheme (by decide)
  refine ⟨?_, ?_, ?_⟩
  · simp [bearerAuthMiddleware, hs, hscheme, htok, hp]
  · simp [bearerAuthMiddleware, hs, hscheme, htok, hp]
  · cases code <;> rfl

/-- Witness for C7: a concrete Bearer header whose parse raises a tenant
rejection is answered with 403 `tenant_not_allowed`. -/
theorem middleware_validation_error_mapping_witness :
    (bearerAuthMiddleware (some "Bearer sometoken")
        (fun _ => .validationError .tenant_not_allowed "Tenant is not allowed")).response =
      some ⟨403, "tenant_not_allowed", "Tenant is not allowed"⟩ := by
  have h := middleware_validation_error_mapping "Bearer sometoken"
    (fun _ => .validationError .tenant_not_allowed "Tenant is not allowed")
    .tenant_not_allowed "Tenant is not allowed" (by decide) (by decide) rfl
  exact h.1

/-- C9: every run of the middleware either succeeds — no error response,
`next()` called, `req.auth` set to the token/identity/tenant record and
`req.rateLimitUserId` to the subject id — or fails — exactly one error
response written, `next()` never called, and both request fields left
unset. -/
theorem middleware_success_or_failure (h : Option String)
    (p : String → ParseOutcome) :
    ((bearerAuthMiddleware h p).nextCalled = true ∧
      (bearerAuthMiddleware h p).response = none ∧
      ∃ s t, h = some s ∧ p (strTrim (strDrop s 7)) = .ok t ∧
        (bearerAuthMiddleware h p).auth =
          some ⟨strTrim (strDrop s 7), getUserIdentifier t, t.tid, t⟩ ∧
        (bearerAuthMiddleware h p).rateLimitUserId = some t.oid) ∨
    ((bearerAuthMiddleware h p).nextCalled = false ∧
      (bearerAuthMiddleware h p).auth = none ∧
      (bearerAuthMiddleware h p).rateLimitUserId = none ∧
      ∃ e, (bearerAuthMiddleware h p).response = some e) := by
  rcases h with _ | s
  · right
    simp [bearerAuthMiddleware]
  · by_cases hs : s = ""
    · right
      simp [bearerAuthMiddleware, hs]
    · by_cases hb : strStartsWith s "Bearer " = true
      · by_cases ht : strTrim (strDrop s 7) = ""
        · right
          simp [bearerAuthMiddleware, hs, hb, ht]
        · rcases hp : p (strTrim (strDrop s 7)) with t | ⟨code, msg⟩ | _
          · left
            refine ⟨?_, ?_, s, t, rfl, hp, ?_, ?_⟩ <;>
              simp [bearerAuthMiddleware, hs, hb, ht, hp]
          · right
            simp [bearerAuthMiddleware, hs, hb, ht, hp]
          · right
            simp [bearerAuthMiddleware, hs, hb, ht, hp]
      · right
        rw [Bool.not_eq_true] at hb
        simp [bearerAuthMiddleware, hs, hb]

/-- Request body of `POST /register` (RFC 7591 metadata, all optional). -/
structure RegisterBody where
  client_name : Option String
  redirect_uris : Option (List String)
  grant_types : Option (List String)
  response_types : Option (List String)
  token_endpoint_auth_method : Option String
deriving DecidableEq

/-- The 201 registration response of `POST /register`. -/
structure RegisterResponse where
  status : Nat
  client_id : String
  client_secret : String
  client_name : Option String
  redirect_uris : List String
  grant_types : List String
  response_types : List String
  token_endpoint_auth_method : String
  client_id_issued_at : Nat
deriving DecidableEq

/-- Embedding of the `POST /register` handler of `src/auth/metadata.ts`.
The two `randomUUID()` draws and `Math.floor(Date.now() / 1000)` are
passed in as arguments; missing body fields get the handler's defaults
(`[]` for `redirect_uris`). -/
def registerHandler (clientId clientSecret : String) (issuedAt : Nat)
    (body : RegisterBody) : RegisterResponse :=
  ⟨201, clientId, clientSecret, body.client_name,
    body.redirect_uris.getD [],
    body.grant_types.getD ["authorization_code", "refresh_token"],
    body.response_types.getD ["code"],
    body.token_endpoint_auth_method.getD "client_secret_post",
    issuedAt⟩

/-- C8: a registration without `redirect_uris` is answered 201 with an
empty `redirect_uris` array and the generated credentials; under the
spec's crypto-random generator model — `randomUUID()` draws are non-empty
and distinct across calls — the returned `client_id`/`client_secret` are
non-empty and two successive registrations never collide. -/
theorem register_missing_redirect_uris (u1 u2 u1' u2' : String)
    (t t' : Nat) (b b' : RegisterBody)
    (hu1 : u1 ≠ "") (hu2 : u2 ≠ "") (hne : u1 ≠ u1')
    (hb : b.redirect_uris = none) :
    (registerHandler u1 u2 t b).status = 201 ∧
    (registerHandler u1 u2 t b).redirect_uris = [] ∧
    (registerHandler u1 u2 t b).client_id ≠ "" ∧
    (registerHandler u1 u2 t b).client_secret ≠ "" ∧
    (registerHandler u1 u2 t b).client_id ≠ (registerHandler u1' u2' t' b').client_id := by
  refine ⟨rfl, ?_, hu1, hu2, hne⟩
  simp [registerHandler, hb]

/-- Witness for C8 at concrete UUID draws and an empty body. -/
theorem register_missing_redirect_uris_witness :
    (registerHandler "uuid-1" "uuid-2" 1700000000
        ⟨none, none, none, none, none⟩).status = 201 ∧
    (registerHandler "uuid-1" "uuid-2" 1700000000
        ⟨none, none, none, none, none⟩).redirect_uris = [] ∧
    (registerHandler "uuid-1" "uuid-2" 1700000000
        ⟨none, none, none, none, none⟩).client_id ≠ "" ∧
    (registerHandler "uuid-1" "uuid-2" 1700000000
        ⟨none, none, none, none, none⟩).client_secret ≠ "" ∧
    (registerHandler "uuid-1" "uuid-2" 1700000000
        ⟨none, none, none, none, none⟩).client_id ≠
      (registerHandler "uuid-3" "uuid-4" 1700000001
        ⟨none, none, none, none, none⟩).client_id :=
  register_missing_redirect_uris "uuid-1" "uuid-2" "uuid-3" "uuid-4"
    1700000000 1700000001 ⟨none, none, none, none, none⟩ ⟨none, none, none, none, none⟩
    (by decide) (by decide) (by decide) rfl

/-- Modelled from the spec: the Tenant Gate `check` of §4.2 (its source is
not under `src/`): an empty allowlist admits every tenant, a non-empty
allowlist admits exactly its members by exact, case-sensitive string
comparison. -/
def checkTenant (tenantId : String) (allowlist : List String) : Bool :=
  allowlist.isEmpty || allowlist.contains tenantId

/-- C5: with an empty allowlist every tenant string passes (including the
empty string); with a non-empty allowlist, `check` accepts exactly the
allowlist members, comparing case-sensitively, so "Contoso" and "contoso"
are distinct. -/
theorem tenant_gate_membership (t : String) (allowlist : List String) :
    (allowlist = [] → checkTenant t allowlist = true) ∧
    (allowlist ≠ [] → (checkTenant t allowlist = true ↔ t ∈ allowlist)) ∧
    checkTenant "" [] = true ∧
    checkTenant "Contoso" ["Contoso"] = true ∧
    checkTenant "contoso" ["Contoso"] = false := by
  refine ⟨?_, ?_, by decide, by decide, by decide⟩
  · intro he
    simp [checkTenant, he]
  · intro hne
    simp [checkTenant, List.isEmpty_iff, hne]

/-- Witness for C5 at a concrete non-empty allowlist: exact match is
accepted. -/
theorem tenant_gate_membership_witness :
    checkTenant "tenant-a" ["tenant-a", "tenant-b"] = true :=
  ((tenant_gate_membership "tenant-a" ["tenant-a", "tenant-b"]).2.1
    (by decide)).2 (by decide)

/-- Modelled from the spec: the Claim Extractor `parse` of §4.1 (the
`token-validator.ts` source is not under `src/`), restricted to the stage
after structural decoding: a token whose payload failed to decode into a
claim set is `invalid_token`; a decoded claim set is `expired_token` when
`expiresAt` is in the past relative to the current time (strictly less
than now, the boundary being exclusive on the past side), otherwise the
claims are returned. -/
def parseClaims (decoded : Option ParsedToken) (now : Int) :
    Except TokenErrorCode ParsedToken :=
  match decoded with
  | none => .error .invalid_token
  | some c => if c.exp < now then .error .expired_token else .ok c

/-- C4: a claim set with `expiresAt` strictly before the current time
parses to `ExpiredToken`; one with `expiresAt` exactly equal to now is
still valid. -/
theorem parse_expiry_boundary (c : ParsedToken) (now : Int) :
    (c.exp < now → parseClaims (some c) now = .error .expired_token) ∧
    (c.exp = now → parseClaims (some c) now = .ok c) := by
  constructor
  · intro hlt
    simp [parseClaims, hlt]
  · intro heq
    simp [parseClaims, heq]

/-- Witness for C4: with now = 100, expiry 99 is expired and expiry 100
is still valid. -/
theorem parse_expiry_boundary_witness :
    parseClaims (some ⟨"oid", "tid", none, 99⟩) 100 = .error .expired_token ∧
    parseClaims (some ⟨"oid", "tid", none, 100⟩) 100 = .ok ⟨"oid", "tid", none, 100⟩ :=
  ⟨(parse_expiry_boundary ⟨"oid", "tid", none, 99⟩ 100).1 (by decide),
   (parse_expiry_boundary ⟨"oid", "tid", none, 100⟩ 100).2 rfl⟩

/-- Modelled from the spec: a per-identity rate-limit window record of
§4.3 (the `rate-limiter.ts` source is not under `src/`). -/
structure RateLimitWindow where
  windowStartMs : Nat
  requestCount : Nat
deriving DecidableEq

/-- Result of one `admit` call as exposed to the middleware. -/
structure AdmitResult where
  allowed : Bool
  remaining : Nat
  resetAtMs : Nat
  retryAfterSeconds : Nat
deriving DecidableEq

/-- Modelled from the spec: one `admit(k)` step of §4.3 on the identity's
window (`none` when the identity has no window yet). A missing window, or
one whose age exceeds `windowMs`, is replaced by a fresh window of count 1
starting now; otherwise the count increments. `allowed = count ≤ limit`,
`remaining = max(0, limit - count)` (natural subtraction),
`resetAtMs = windowStartMs + windowMs`, and `retryAfterSeconds` is
`ceil((resetAtMs - now) / 1000)`. -/
def admitStep (w : Option RateLimitWindow) (limit windowMs now : Nat) :
    RateLimitWindow × AdmitResult :=
  let w' : RateLimitWindow :=
    match w with
    | none => ⟨now, 1⟩
    | some prev =>
      if now - prev.windowStartMs > windowMs then ⟨now, 1⟩
      else ⟨prev.windowStartMs, prev.requestCount + 1⟩
  let resetAtMs := w'.windowStartMs + windowMs
  (w', ⟨decide (w'.requestCount ≤ limit), limit - w'.requestCount, resetAtMs,
    (resetAtMs - now + 999) / 1000⟩)

/-- C2: the window policy of `admit` — fresh window with count 1 on a
missing or over-age window, increment otherwise; `allowed`, `remaining`
and `resetAtMs` computed from the updated window — together with the
spec's concrete scenario at `limit = 3`, `windowMs = 60000`: three admits
inside the window answer allowed with remaining 2, 1, 0, the fourth is
denied with a positive `retryAfterSeconds`, and a fifth call after the
window has elapsed starts over with remaining 2. -/
theorem rate_limiter_window_policy (limit windowMs now : Nat)
    (w : Option RateLimitWindow) :
    (w = none → (admitStep w limit windowMs now).1 = ⟨now, 1⟩) ∧
    (∀ prev, w = some prev → now - prev.windowStartMs > windowMs →
      (admitStep w limit windowMs now).1 = ⟨now, 1⟩) ∧
    (∀ prev, w = some prev → ¬ now - prev.windowStartMs > windowMs →
      (admitStep w limit windowMs now).1 =
        ⟨prev.windowStartMs, prev.requestCount + 1⟩) ∧
    (admitStep w limit windowMs now).2.allowed =
      decide ((admitStep w limit windowMs now).1.requestCount ≤ limit) ∧
    (admitStep w limit windowMs now).2.remaining =
      limit - (admitStep w limit windowMs now).1.requestCount ∧
    (admitStep w limit windowMs now).2.resetAtMs =
      (admitStep w limit windowMs now).1.windowStartMs + windowMs ∧
    ((admitStep none 3 60000 1000).2.allowed = true ∧
      (admitStep none 3 60000 1000).2.remaining = 2 ∧
      (admitStep (some (admitStep none 3 60000 1000).1) 3 60000 1001).2.allowed = true ∧
      (admitStep (some (admitStep none 3 60000 1000).1) 3 60000 1001).2.remaining = 1 ∧
      (admitStep (some (admitStep (some (admitStep none 3 60000 1000).1)
          3 60000 1001).1) 3 60000 1002).2.allowed = true ∧
      (admitStep (some (admitStep (some (admitStep none 3 60000 1000).1)
          3 60000 1001).1) 3 60000 1002).2.remaining = 0 ∧
      (admitStep (some (admitStep (some (admitStep (some (admitStep none 3 60000 1000).1)
          3 60000 1001).1) 3 60000 1002).1) 3 60000 1003).2.allowed = false ∧
      (admitStep (some (admitStep (some (admitStep (some (admitStep none 3 60000 1000).1)
          3 60000 1001).1) 3 60000 1002).1) 3 60000 1003).2.retryAfterSeconds > 0 ∧
      (admitStep (some (admitStep (some (admitStep (some (admitStep (some
          (admitStep none 3 60000 1000).1) 3 60000 1001).1) 3 60000 1002).1)
          3 60000 1003).1) 3 60000 61004).2.allowed = true ∧
      (admitStep (some (admitStep (some (admitStep (some (admitStep (some
          (admitStep none 3 60000 1000).1) 3 60000 1001).1) 3 60000 1002).1)
          3 60000 1003).1) 3 60000 61004).2.remaining = 2) := by
  refine ⟨?_, ?_, ?_, ?_, ?_, ?_, by decide⟩
  · intro hw
    simp [admitStep, hw]
  · intro prev hw hage
    simp [admitStep, hw, hage]
  · intro prev hw hage
    simp [admitStep, hw, hage]
  · rfl
  · rfl
  · rfl

/-- Witness for C2: a concrete fresh-window admit and a concrete
over-age reset, via the policy theorem. -/
theorem rate_limiter_window_policy_witness :
    (admitStep none 5 1000 42).1 = ⟨42, 1⟩ ∧
    (admitStep (some ⟨0, 4⟩) 5 1000 1500).1 = ⟨1500, 1⟩ ∧
    (admitStep (some ⟨0, 4⟩) 5 1000 900).1 = ⟨0, 5⟩ :=
  ⟨(rate_limiter_window_policy 5 1000 42 none).1 rfl,
   (rate_limiter_window_policy 5 1000 1500 (some ⟨0, 4⟩)).2.1 ⟨0, 4⟩ rfl (by decide),
   (rate_limiter_window_policy 5 1000 900 (some ⟨0, 4⟩)).2.2.1 ⟨0, 4⟩ rfl (by decide)⟩
